import Mathlib

/-!
# Verification of the crosshatch image pipeline

Shallow embedding of the crosshatch shader (src/renderer/shaders/crosshatch.frag)
and the renderer logic (src/renderer/renderer.js) over exact rationals.
GLSL float arithmetic is idealised as exact rational arithmetic; the one
irrational operation, the square root inside the Sobel edge detector, is
captured relationally by `IsSqrt` so that every definition stays computable.
-/

namespace Crosshatch

/-- An RGB sample, as produced by a texture fetch. -/
structure Vec3 where
  r : ℚ
  g : ℚ
  b : ℚ
deriving DecidableEq

/-- An RGBA output pixel, as written to outColor. -/
structure Vec4 where
  r : ℚ
  g : ℚ
  b : ℚ
  a : ℚ
deriving DecidableEq

/-- GLSL clamp(x, lo, hi) = min(max(x, lo), hi). -/
def clampQ (x lo hi : ℚ) : ℚ := min (max x lo) hi

/-- GLSL step(edge, x): 0 when x < edge, else 1. -/
def stepQ (edge x : ℚ) : ℚ := if x < edge then 0 else 1

/-- GLSL mix(x, y, a) = x*(1-a) + y*a. -/
def mixQ (x y a : ℚ) : ℚ := x * (1 - a) + y * a

/-- BT.709 luminance, from the shader function luminance (crosshatch.frag line 23). -/
def luminance (c : Vec3) : ℚ := 0.2126 * c.r + 0.7152 * c.g + 0.0722 * c.b

/-- The view mapping of main (crosshatch.frag lines 51-54): output fragment
coordinate to source uv.  imagePx = (fragPx - 0.5*outSize) / max(zoom, 1e-6) + centerPx,
uv = imagePx / texSize. -/
def mapToUV (fragPx outSize centerPx texSize : ℚ × ℚ) (zoom : ℚ) : ℚ × ℚ :=
  (((fragPx.1 - 0.5 * outSize.1) / max zoom 0.000001 + centerPx.1) / texSize.1,
   ((fragPx.2 - 0.5 * outSize.2) / max zoom 0.000001 + centerPx.2) / texSize.2)

/-- The out-of-bounds test of main (crosshatch.frag line 56). -/
def outOfBounds (uv : ℚ × ℚ) : Prop :=
  uv.1 < 0 ∨ uv.1 > 1 ∨ uv.2 < 0 ∨ uv.2 > 1

instance (uv : ℚ × ℚ) : Decidable (outOfBounds uv) := by
  unfold outOfBounds; exact inferInstance

/-- The zone-based rendering block of main (crosshatch.frag lines 78-88):
shadow pixels are 0, highlight pixels are 1, midtone pixels blend pure
posterization with the hatch texture.  Rational division in Lean is total
with x / 0 = 0, while the shader executes the corresponding floating-point
division unguarded; the degenerate case highlightThreshold = shadowThreshold,
where the divisor is zero on a reachable input, is therefore treated
explicitly in the theorems below rather than hidden behind this convention. -/
def zoneResult (lum shadowThreshold highlightThreshold hatchValue hatchAmount : ℚ) : ℚ :=
  if lum < shadowThreshold then 0
  else if lum > highlightThreshold then 1
  else
    let midTonePos := (lum - shadowThreshold) / (highlightThreshold - shadowThreshold)
    let pureResult := stepQ 0.5 midTonePos
    let textureResult := stepQ 0.5 (hatchValue + midTonePos)
    mixQ pureResult textureResult hatchAmount

/-- The edge mask of main (crosshatch.frag lines 65-66):
edgeMask = step(0.15, 1 - detectEdges(...)*edgeStrength*0.85). -/
def edgeMaskOf (edgeRaw edgeStrength : ℚ) : ℚ :=
  stepQ 0.15 (1 - edgeRaw * edgeStrength * 0.85)

/-- The squared Sobel gradient magnitude of detectEdges (crosshatch.frag
lines 32-45): the 3x3 neighbourhood luminances at one-pixel uv offsets,
convolved with the Sobel kernels.  The shader then takes
clamp(sqrt(gx*gx+gy*gy) * 3.5, 0, 1); the square root is captured by the
relation `DetectEdges` below. -/
def detectEdgesMagSq (img : ℚ → ℚ → Vec3) (uv texSize : ℚ × ℚ) : ℚ :=
  let px : ℚ × ℚ := (1 / texSize.1, 1 / texSize.2)
  let tl := luminance (img (uv.1 - px.1) (uv.2 + px.2))
  let tm := luminance (img uv.1 (uv.2 + px.2))
  let tr := luminance (img (uv.1 + px.1) (uv.2 + px.2))
  let ml := luminance (img (uv.1 - px.1) uv.2)
  let mr := luminance (img (uv.1 + px.1) uv.2)
  let bl := luminance (img (uv.1 - px.1) (uv.2 - px.2))
  let bm := luminance (img uv.1 (uv.2 - px.2))
  let br := luminance (img (uv.1 + px.1) (uv.2 - px.2))
  let gx := -tl + tr - 2 * ml + 2 * mr - bl + br
  let gy := -tl - 2 * tm - tr + bl + 2 * bm + br
  gx * gx + gy * gy

/-- r is the exact nonnegative square root of s. -/
def IsSqrt (s r : ℚ) : Prop := 0 ≤ r ∧ r * r = s

/-- e is the value returned by detectEdges (crosshatch.frag line 47):
clamp(sqrt(gx*gx+gy*gy) * 3.5, 0, 1), stated relationally because the square
root of a rational is in general irrational. -/
def DetectEdges (img : ℚ → ℚ → Vec3) (uv texSize : ℚ × ℚ) (e : ℚ) : Prop :=
  ∃ m, IsSqrt (detectEdgesMagSq img uv texSize) m ∧ e = clampQ (m * 3.5) 0 1

/-- The body of main (crosshatch.frag lines 50-92).  img and hatch are the two
texture samplers as functions of uv; edgeRaw stands for the value of the
detectEdges call at this uv, characterised by `DetectEdges`. -/
def renderMain (img hatch : ℚ → ℚ → Vec3) (texSize outSize centerPx fragPx : ℚ × ℚ)
    (zoom hatchScale toonThreshold finalThreshold brightness hatchAmount edgeStrength
     edgeRaw : ℚ) : Vec4 :=
  let uv := mapToUV fragPx outSize centerPx texSize zoom
  if outOfBounds uv then ⟨1, 1, 1, 1⟩
  else
    let srcColor := img uv.1 uv.2
    let lum := clampQ (luminance srcColor * brightness) 0 1
    let edgeMask := edgeMaskOf edgeRaw edgeStrength
    let shadowThreshold := toonThreshold + 0.05
    let highlightThreshold := 1 - finalThreshold
    let tileScale := hatchScale * (outSize.2 / 800)
    let hatchUV : ℚ × ℚ := (fragPx.1 / outSize.1 * tileScale, fragPx.2 / outSize.2 * tileScale)
    let hatchValue := luminance (hatch hatchUV.1 hatchUV.2)
    let result := zoneResult lum shadowThreshold highlightThreshold hatchValue hatchAmount
    let final := result * edgeMask
    ⟨final, final, final, 1⟩

/-- The midtone branch condition of the zone-based rendering block
(crosshatch.frag lines 79-83): neither the shadow nor the highlight branch
is taken, so the division by (highlightThreshold - shadowThreshold) at line 84
is evaluated. -/
def midtoneBranch (lum shadowThreshold highlightThreshold : ℚ) : Prop :=
  ¬(lum < shadowThreshold) ∧ ¬(lum > highlightThreshold)

instance (lum sT hT : ℚ) : Decidable (midtoneBranch lum sT hT) := by
  unfold midtoneBranch; exact inferInstance

/-- mapRange of renderer.js lines 82-85: clamped linear interpolation. -/
def mapRange (value inMin inMax outMin outMax : ℚ) : ℚ :=
  let clamped := max inMin (min inMax value)
  outMin + (outMax - outMin) * ((clamped - inMin) / (inMax - inMin))

/-- The four statistics produced by analyzeImage (renderer.js lines 199-204). -/
structure AnalysisResult where
  meanLum : ℚ
  stdLum : ℚ
  edgeDensity : ℚ
  textureComplexity : ℚ
deriving DecidableEq

/-- The six effect parameters, named as in the object returned by
calculateAutoSettings (renderer.js line 235). -/
structure EffectSettings where
  brightness : ℚ
  scale : ℚ
  hatching : ℚ
  edges : ℚ
  toon : ℚ
  threshold : ℚ
deriving DecidableEq

/-- calculateAutoSettings of renderer.js lines 207-236, translated clause by
clause. -/
def calculateAutoSettings (a : AnalysisResult) : EffectSettings :=
  let brightness :=
    if a.meanLum < 0.35 then
      let contrastFactor := mapRange a.stdLum 0.1 0.25 1.0 0.3
      0.95 + 0.3 * contrastFactor
    else if a.meanLum < 0.55 then
      mapRange a.meanLum 0.35 0.55 0.95 0.85
    else
      mapRange a.meanLum 0.55 0.75 0.85 0.75
  let toon := mapRange a.stdLum 0.1 0.25 0.24 0.28
  let threshold :=
    if a.meanLum < 0.35 then mapRange a.meanLum 0.15 0.35 0.25 0.32
    else mapRange a.meanLum 0.35 0.6 0.34 0.30
  let edges :=
    if a.meanLum < 0.35 then 1.0
    else mapRange a.textureComplexity 0.4 0.8 1.15 1.0
  let hatching :=
    if a.meanLum < 0.35 then mapRange a.meanLum 0.15 0.35 0.75 0.90
    else 1.0
  let scale := 2.0
  ⟨brightness, scale, hatching, edges, toon, threshold⟩

/-- The wheel-zoom update of handleWheel (renderer.js lines 500-501):
newZoom = min(20, max(0.05, viewZoom * zoomFactor)). -/
def wheelZoomUpdate (viewZoom zoomFactor : ℚ) : ℚ :=
  min 20 (max 0.05 (viewZoom * zoomFactor))

/-- The zoom set by fitToView (renderer.js line 300):
viewZoom = min(outW / srcW, outH / srcH). -/
def fitToViewZoom (outW outH srcW srcH : ℚ) : ℚ :=
  min (outW / srcW) (outH / srcH)

/-- The zoom set by oneToOne (renderer.js line 306). -/
def oneToOneZoom : ℚ := 1

/-- The mutable view state of renderer.js (viewCenter, viewZoom). -/
structure ViewState where
  centerX : ℚ
  centerY : ℚ
  zoom : ℚ
deriving DecidableEq

/-- The mutable renderer state read by renderToTarget: the view transform
plus the six effect parameters. -/
structure RendererState where
  view : ViewState
  settings : EffectSettings
deriving DecidableEq

/-- The arguments of the renderToTarget call issued by the export handler
(renderer.js line 581): the view uniforms and parameters in effect, and the
output resolution. -/
structure RenderCall where
  centerX : ℚ
  centerY : ℚ
  zoom : ℚ
  outW : ℚ
  outH : ℚ
  settings : EffectSettings
deriving DecidableEq

/-- The outcome of the awaited window.api.savePng call inside the export
handler (renderer.js line 607).  The main-process handler resolves with
ok = true after a successful write and with ok = false when the dialog is
cancelled; a throw of fs.writeFileSync rejects the promise, so the await in
the renderer throws. -/
inductive SaveOutcome where
  | ok
  | canceled
  | threw
deriving DecidableEq

/-- The btnExport click handler (renderer.js lines 571-615) as a state
transformer: save prevCenter and prevZoom, override the view to zoom 1
centered on the source midpoint, render at srcW x srcH, await savePng, then
restore the saved center and zoom (lines 612-614).  When savePng resolves
(outcome ok or canceled; on ok = false only a warning is logged) the restore
runs; when savePng rejects (outcome threw) the async handler aborts at the
await on line 607 - there is no try/finally - and the restore never runs, so
the view is left at the export override.  Returns the render call and the
state after the handler finishes or aborts. -/
def exportClick (s : RendererState) (srcW srcH : ℚ) (outcome : SaveOutcome) :
    RenderCall × RendererState :=
  let prevCenterX := s.view.centerX
  let prevCenterY := s.view.centerY
  let prevZoom := s.view.zoom
  let s1 : RendererState := { s with view := ⟨srcW * 0.5, srcH * 0.5, 1⟩ }
  let call : RenderCall :=
    ⟨s1.view.centerX, s1.view.centerY, s1.view.zoom, srcW, srcH, s1.settings⟩
  match outcome with
  | .threw => (call, s1)
  | _ =>
    let s2 : RendererState := { s1 with view := ⟨prevCenterX, prevCenterY, prevZoom⟩ }
    (call, s2)

/-! ## Helper lemmas -/

/-- In the midtone branch the zone result is the hatch blend of the two
step functions. -/
lemma zoneResult_midtone (lum sT hT hv ha : ℚ) (h1 : ¬(lum < sT)) (h2 : ¬(lum > hT)) :
    zoneResult lum sT hT hv ha =
      mixQ (stepQ 0.5 ((lum - sT) / (hT - sT))) (stepQ 0.5 (hv + (lum - sT) / (hT - sT))) ha := by
  unfold zoneResult
  rw [if_neg h1, if_neg h2]

/-- In the midtone branch, under a strictly ordered threshold pair, the
midtone position lies in the unit interval. -/
lemma midTonePos_mem (lum sT hT : ℚ) (h1 : ¬(lum < sT)) (h2 : ¬(lum > hT)) (hst : sT < hT) :
    0 ≤ (lum - sT) / (hT - sT) ∧ (lum - sT) / (hT - sT) ≤ 1 := by
  push_neg at h1 h2
  constructor
  · exact div_nonneg (by linarith) (by linarith)
  · rw [div_le_one (by linarith)]
    linarith

/-- The ratio inside mapRange lies in the unit interval when the input
interval is proper. -/
lemma mapRange_ratio_mem (v i1 i2 : ℚ) (h : i1 < i2) :
    0 ≤ (max i1 (min i2 v) - i1) / (i2 - i1) ∧ (max i1 (min i2 v) - i1) / (i2 - i1) ≤ 1 := by
  have hd : (0 : ℚ) < i2 - i1 := by linarith
  constructor
  · apply div_nonneg _ hd.le
    have := le_max_left i1 (min i2 v)
    linarith
  · rw [div_le_one hd]
    have h1 : max i1 (min i2 v) ≤ i2 := max_le h.le (min_le_left _ _)
    linarith

/-- mapRange with an ascending output range stays between the endpoints. -/
lemma mapRange_mem_asc (v i1 i2 o1 o2 : ℚ) (h : i1 < i2) (ho : o1 ≤ o2) :
    o1 ≤ mapRange v i1 i2 o1 o2 ∧ mapRange v i1 i2 o1 o2 ≤ o2 := by
  obtain ⟨ht0, ht1⟩ := mapRange_ratio_mem v i1 i2 h
  simp only [mapRange]
  set t := (max i1 (min i2 v) - i1) / (i2 - i1) with htdef
  constructor
  · nlinarith
  · nlinarith

/-- mapRange with a descending output range stays between the endpoints. -/
lemma mapRange_mem_desc (v i1 i2 o1 o2 : ℚ) (h : i1 < i2) (ho : o2 ≤ o1) :
    o2 ≤ mapRange v i1 i2 o1 o2 ∧ mapRange v i1 i2 o1 o2 ≤ o1 := by
  obtain ⟨ht0, ht1⟩ := mapRange_ratio_mem v i1 i2 h
  simp only [mapRange]
  set t := (max i1 (min i2 v) - i1) / (i2 - i1) with htdef
  constructor
  · nlinarith
  · nlinarith

/-! ## Claims -/

/-- Claim C1 counterexample: the unconditional membership of midTonePos in
the unit interval fails as a program property.  At toonThreshold 0.6,
finalThreshold 0.35, brightness 1 and source luminance 0.65, the pixel
enters the midtone branch while highlightThreshold - shadowThreshold = 0:
the shader executes the midTonePos division with a zero divisor and no
guard, so midTonePos is not a well-defined member of the unit interval at
this reachable input. -/
theorem midtone_membership_fails_at_degenerate :
    midtoneBranch (clampQ (0.65 * 1) 0 1) (0.6 + 0.05) (1 - 0.35) ∧
    (1 - 0.35) - ((0.6 : ℚ) + 0.05) = 0 := by
  norm_num [midtoneBranch, clampQ]

/-- Claim C1 amended: for every in-bounds pixel, with lum =
clamp(sourceLuminance * brightness, 0, 1), shadowThreshold = toonThreshold +
0.05 and highlightThreshold = 1 - finalThreshold, the pre-edge zone result is
0 when lum < shadowThreshold, 1 when lum > highlightThreshold, and otherwise
is the hatch blend computed from midTonePos = (lum - shadowThreshold) /
(highlightThreshold - shadowThreshold); the midtone branch itself forces
shadowThreshold to be at most highlightThreshold, and midTonePos lies in the
unit interval whenever shadowThreshold is strictly below highlightThreshold,
while at exact equality the division runs with a zero divisor. -/
theorem zone_classification_guarded
    (lum0 brightness toon final lum sT hT hv ha : ℚ)
    (hl : lum = clampQ (lum0 * brightness) 0 1)
    (hs : sT = toon + 0.05)
    (hh : hT = 1 - final) :
    (lum < sT → zoneResult lum sT hT hv ha = 0) ∧
    (¬(lum < sT) → lum > hT → zoneResult lum sT hT hv ha = 1) ∧
    (¬(lum < sT) → ¬(lum > hT) →
      zoneResult lum sT hT hv ha =
        mixQ (stepQ 0.5 ((lum - sT) / (hT - sT)))
          (stepQ 0.5 (hv + (lum - sT) / (hT - sT))) ha ∧
      sT ≤ hT ∧
      (sT < hT → 0 ≤ (lum - sT) / (hT - sT) ∧ (lum - sT) / (hT - sT) ≤ 1)) := by
  refine ⟨?_, ?_, ?_⟩
  · intro h
    unfold zoneResult
    rw [if_pos h]
  · intro h1 h2
    unfold zoneResult
    rw [if_neg h1, if_pos h2]
  · intro h1 h2
    refine ⟨zoneResult_midtone lum sT hT hv ha h1 h2, ?_, midTonePos_mem lum sT hT h1 h2⟩
    push_neg at h1 h2
    exact h1.trans h2

/-- Witness for the amended C1: a concrete midtone pixel with strictly
ordered thresholds. -/
theorem zone_classification_guarded_witness :
    zoneResult 0.6 0.55 0.7 0.25 0.5 =
      mixQ (stepQ 0.5 ((0.6 - 0.55) / (0.7 - 0.55)))
        (stepQ 0.5 (0.25 + (0.6 - 0.55) / (0.7 - 0.55))) 0.5 ∧
    0 ≤ ((0.6 : ℚ) - 0.55) / (0.7 - 0.55) ∧ ((0.6 : ℚ) - 0.55) / (0.7 - 0.55) ≤ 1 :=
  ⟨((zone_classification_guarded 0.6 1 0.5 0.3 0.6 0.55 0.7 0.25 0.5
      (by norm_num [clampQ]) (by norm_num) (by norm_num)).2.2
      (by norm_num) (by norm_num)).1,
   ((zone_classification_guarded 0.6 1 0.5 0.3 0.6 0.55 0.7 0.25 0.5
      (by norm_num [clampQ]) (by norm_num) (by norm_num)).2.2
      (by norm_num) (by norm_num)).2.2 (by norm_num)⟩

/-- Claim C2: whenever the mapped source coordinate falls outside the unit
square on either axis, main outputs the fixed opaque background color
vec4(1), independent of both samplers, the edge value and all six effect
parameters. -/
theorem out_of_bounds_background
    (img hatch : ℚ → ℚ → Vec3) (texSize outSize centerPx fragPx : ℚ × ℚ)
    (zoom hatchScale toon final brightness hatchAmount edgeStrength edgeRaw : ℚ)
    (h : outOfBounds (mapToUV fragPx outSize centerPx texSize zoom)) :
    renderMain img hatch texSize outSize centerPx fragPx zoom hatchScale toon final
      brightness hatchAmount edgeStrength edgeRaw = ⟨1, 1, 1, 1⟩ := by
  simp only [renderMain]
  rw [if_pos h]

/-- Witness for C2: a fragment whose mapped coordinate is left of the image. -/
theorem out_of_bounds_background_witness :
    renderMain (fun _ _ => ⟨0, 0, 0⟩) (fun _ _ => ⟨0, 0, 0⟩) (100, 100) (100, 100) (0, 0) (0, 0)
      1 2 0.5 0.3 1 1 1 0 = ⟨1, 1, 1, 1⟩ :=
  out_of_bounds_background _ _ _ _ _ _ _ _ _ _ _ _ _ _
    (by norm_num [outOfBounds, mapToUV])

/-- Claim C3 counterexample: with toonThreshold 0.5 and finalThreshold 0.45
the two thresholds coincide (a degenerate configuration with
highlightThreshold less than or equal to shadowThreshold), yet at source
luminance 0.55 the midtone branch is reached and the divisor
highlightThreshold - shadowThreshold is exactly zero: the division is neither
unreachable nor guarded. -/
theorem degenerate_thresholds_division_reached :
    (1 - 0.45 ≤ (0.5 : ℚ) + 0.05) ∧
    midtoneBranch (clampQ (0.55 * 1) 0 1) (0.5 + 0.05) (1 - 0.45) ∧
    (1 - 0.45) - ((0.5 : ℚ) + 0.05) = 0 := by
  norm_num [midtoneBranch, clampQ]

/-- Claim C3 amended: when highlightThreshold is strictly below
shadowThreshold, the midtone branch, and with it the division by
(highlightThreshold - shadowThreshold), is unreachable for every luminance
value; when the two thresholds are exactly equal the branch is reachable with
a zero divisor. -/
theorem strict_degenerate_midtone_unreachable (lum sT hT : ℚ) (h : hT < sT) :
    ¬ midtoneBranch lum sT hT := by
  rintro ⟨h1, h2⟩
  push_neg at h1 h2
  linarith

/-- Witness for the amended C3. -/
theorem strict_degenerate_midtone_unreachable_witness :
    ((0.5 : ℚ) < 0.6) ∧ ¬ midtoneBranch 0.7 0.6 0.5 :=
  ⟨by norm_num, strict_degenerate_midtone_unreachable 0.7 0.6 0.5 (by norm_num)⟩

/-- Claim C4 counterexample: at edgeRaw = 1 and edgeStrength = 1 we have
edgeRaw * edgeStrength = 1, so the claim predicts edgeMask = 0, but the
shader computes step(0.15, 1 - 0.85) = step(0.15, 0.15) = 1. -/
theorem edge_mask_boundary_counterexample :
    (0 ≤ (1 : ℚ) ∧ (1 : ℚ) ≤ 1) ∧ (1 : ℚ) * 1 ≥ 1 ∧
    edgeMaskOf 1 1 = 1 ∧ edgeMaskOf 1 1 ≠ 0 := by
  norm_num [edgeMaskOf, stepQ]

/-- Claim C4 amended: edgeMask is 0 exactly when edgeRaw * edgeStrength is
strictly greater than 1, that is when 1 - edgeRaw * edgeStrength * 0.85 falls
strictly below 0.15; for every edge with edgeRaw * edgeStrength at most 1,
edgeMask is 1 and the zone result passes through unchanged. -/
theorem edge_mask_strict_rule (edgeRaw es z : ℚ) :
    (edgeMaskOf edgeRaw es = 0 ↔ 1 < edgeRaw * es) ∧
    (edgeRaw * es ≤ 1 → edgeMaskOf edgeRaw es = 1 ∧ z * edgeMaskOf edgeRaw es = z) := by
  unfold edgeMaskOf stepQ
  split_ifs with h
  · constructor
    · constructor
      · intro _
        linarith
      · intro _
        rfl
    · intro hle
      exfalso
      linarith
  · push_neg at h
    constructor
    · constructor
      · intro h1
        exact absurd h1 one_ne_zero
      · intro hgt
        exfalso
        linarith
    · intro _
      exact ⟨rfl, mul_one z⟩

/-- Witness for the amended C4: a weak edge passes the zone result through. -/
theorem edge_mask_strict_rule_witness :
    edgeMaskOf 0.5 1 = 1 ∧ (0.7 : ℚ) * edgeMaskOf 0.5 1 = 0.7 :=
  (edge_mask_strict_rule 0.5 1 0.7).2 (by norm_num)

/-- Claim C5: at every midtone pixel, with hatchAmount 0 the zone result is
pureResult = step(0.5, midTonePos), independent of the hatch texture sample;
with hatchAmount 1 it is textureResult = step(0.5, hatchValue + midTonePos). -/
theorem hatch_blending_boundary (lum sT hT hv ha : ℚ)
    (h1 : ¬(lum < sT)) (h2 : ¬(lum > hT)) :
    (∀ hv1 hv2 : ℚ, zoneResult lum sT hT hv1 0 = zoneResult lum sT hT hv2 0) ∧
    zoneResult lum sT hT hv 0 = stepQ 0.5 ((lum - sT) / (hT - sT)) ∧
    zoneResult lum sT hT hv 1 = stepQ 0.5 (hv + (lum - sT) / (hT - sT)) := by
  have e0 : ∀ hv0 : ℚ, zoneResult lum sT hT hv0 0 = stepQ 0.5 ((lum - sT) / (hT - sT)) := by
    intro hv0
    rw [zoneResult_midtone lum sT hT hv0 0 h1 h2]
    unfold mixQ
    ring
  have e1 : zoneResult lum sT hT hv 1 = stepQ 0.5 (hv + (lum - sT) / (hT - sT)) := by
    rw [zoneResult_midtone lum sT hT hv 1 h1 h2]
    unfold mixQ
    ring
  exact ⟨fun a b => (e0 a).trans (e0 b).symm, e0 hv, e1⟩

/-- Witness for C5: a concrete midtone pixel at both blend extremes. -/
theorem hatch_blending_boundary_witness :
    zoneResult 0.6 0.55 0.7 0.3 0 = stepQ 0.5 ((0.6 - 0.55) / (0.7 - 0.55)) ∧
    zoneResult 0.6 0.55 0.7 0.3 1 = stepQ 0.5 (0.3 + (0.6 - 0.55) / (0.7 - 0.55)) :=
  ⟨(hatch_blending_boundary 0.6 0.55 0.7 0.3 0.5 (by norm_num) (by norm_num)).2.1,
   (hatch_blending_boundary 0.6 0.55 0.7 0.3 0.5 (by norm_num) (by norm_num)).2.2⟩

/-- Claim C6: for every AnalysisResult, the auto settings follow the
piecewise rules: hatchScale is constantly 2.0; edgeStrength is 1.0 whenever
meanLuminance is below 0.35 and otherwise maps textureComplexity over
[0.4, 0.8] to [1.15, 1.0]; toonThreshold maps stdLuminance over [0.1, 0.25]
to [0.24, 0.28]; and mapRange is clamped linear interpolation. -/
theorem auto_settings_mapper (a : AnalysisResult) :
    (calculateAutoSettings a).scale = 2 ∧
    (a.meanLum < 0.35 → (calculateAutoSettings a).edges = 1) ∧
    (¬(a.meanLum < 0.35) →
      (calculateAutoSettings a).edges = mapRange a.textureComplexity 0.4 0.8 1.15 1.0) ∧
    (calculateAutoSettings a).toon = mapRange a.stdLum 0.1 0.25 0.24 0.28 ∧
    (∀ v i1 i2 o1 o2 : ℚ,
      mapRange v i1 i2 o1 o2 = o1 + (o2 - o1) * ((max i1 (min i2 v) - i1) / (i2 - i1))) := by
  refine ⟨?_, ?_, ?_, ?_, fun v i1 i2 o1 o2 => rfl⟩
  · simp only [calculateAutoSettings]
    norm_num
  · intro h
    simp only [calculateAutoSettings]
    rw [if_pos h]
    norm_num
  · intro h
    simp only [calculateAutoSettings]
    rw [if_neg h]
  · simp only [calculateAutoSettings]

/-- Witness for C6: a mid-brightness analysis result takes the
complexity-driven edge branch. -/
theorem auto_settings_mapper_witness :
    (calculateAutoSettings ⟨0.5, 0.15, 0, 0.6⟩).edges = mapRange 0.6 0.4 0.8 1.15 1.0 ∧
    (calculateAutoSettings ⟨0.5, 0.15, 0, 0.6⟩).scale = 2 :=
  ⟨(auto_settings_mapper ⟨0.5, 0.15, 0, 0.6⟩).2.2.1 (by norm_num),
   (auto_settings_mapper ⟨0.5, 0.15, 0, 0.6⟩).1⟩

/-- Claim C7: for a source image of uniform luminance 0.5 and parameters
brightness = 1, toonThreshold = 0.5, finalThreshold = 0.3, every in-bounds
output pixel is solid black: the shadow threshold 0.55 exceeds the luminance
0.5, and on a uniform image the Sobel gradient vanishes so the edge mask is 1
and leaves the zone result unchanged. -/
theorem flat_midgray_renders_black
    (img hatch : ℚ → ℚ → Vec3) (c : Vec3)
    (himg : ∀ u v, img u v = c) (hlum : luminance c = 0.5)
    (texSize outSize centerPx fragPx : ℚ × ℚ)
    (zoom hatchScale hatchAmount edgeStrength e : ℚ)
    (hin : ¬ outOfBounds (mapToUV fragPx outSize centerPx texSize zoom))
    (hedge : DetectEdges img (mapToUV fragPx outSize centerPx texSize zoom) texSize e) :
    renderMain img hatch texSize outSize centerPx fragPx zoom hatchScale 0.5 0.3 1
      hatchAmount edgeStrength e = ⟨0, 0, 0, 1⟩ := by
  obtain ⟨m, ⟨hm0, hmm⟩, he⟩ := hedge
  have hmag : detectEdgesMagSq img (mapToUV fragPx outSize centerPx texSize zoom) texSize = 0 := by
    simp only [detectEdgesMagSq, himg, hlum]
    ring
  have hm : m = 0 := mul_self_eq_zero.mp (by rw [hmm, hmag])
  have he0 : e = 0 := by
    rw [he, hm]
    norm_num [clampQ]
  subst he0
  simp only [renderMain]
  rw [if_neg hin]
  simp only [himg, hlum]
  norm_num [clampQ, zoneResult, edgeMaskOf, stepQ]

/-- Witness for C7: a concrete uniform mid-gray image rendered at an
in-bounds fragment. -/
theorem flat_midgray_renders_black_witness :
    renderMain (fun _ _ => ⟨0.5, 0.5, 0.5⟩) (fun _ _ => ⟨0, 0, 0⟩) (100, 100) (100, 100)
      (50, 50) (50, 50) 1 2 0.5 0.3 1 1 1 0 = ⟨0, 0, 0, 1⟩ :=
  flat_midgray_renders_black (fun _ _ => ⟨0.5, 0.5, 0.5⟩) (fun _ _ => ⟨0, 0, 0⟩)
    ⟨0.5, 0.5, 0.5⟩ (fun _ _ => rfl) (by norm_num [luminance])
    (100, 100) (100, 100) (50, 50) (50, 50) 1 2 1 1 0
    (by norm_num [outOfBounds, mapToUV])
    ⟨0, ⟨le_refl 0, by norm_num [detectEdgesMagSq, mapToUV, luminance]⟩,
     by norm_num [clampQ]⟩

/-- Claim C8 counterexample: fit-to-view on a 100 by 100 canvas with a 1 by 1
source image sets zoom to 100, outside the configured interval with upper
end 20; the fit-to-view code applies no clamp. -/
theorem fit_to_view_zoom_escapes_range :
    fitToViewZoom 100 100 1 1 = 100 ∧ ¬(fitToViewZoom 100 100 1 1 ≤ 20) := by
  norm_num [fitToViewZoom]

/-- Claim C8 amended: the wheel-zoom update always lands in [0.05, 20] and
the 1:1 and export overrides set zoom to 1, inside the range; fit-to-view
only guarantees a strictly positive zoom (for positive canvas and source
dimensions) and can leave [0.05, 20] for extreme size ratios. -/
theorem zoom_ops_range (z f outW outH srcW srcH : ℚ)
    (hw : 0 < outW) (hh : 0 < outH) (hsw : 0 < srcW) (hsh : 0 < srcH) :
    (0.05 ≤ wheelZoomUpdate z f ∧ wheelZoomUpdate z f ≤ 20) ∧
    (0.05 ≤ oneToOneZoom ∧ oneToOneZoom ≤ 20) ∧
    0 < fitToViewZoom outW outH srcW srcH := by
  refine ⟨⟨?_, ?_⟩, ⟨by norm_num [oneToOneZoom], by norm_num [oneToOneZoom]⟩, ?_⟩
  · exact le_min (by norm_num) (le_max_left _ _)
  · exact min_le_left _ _
  · exact lt_min (div_pos hw hsw) (div_pos hh hsh)

/-- Witness for the amended C8. -/
theorem zoom_ops_range_witness :
    ((0.05 : ℚ) ≤ wheelZoomUpdate 1 2 ∧ wheelZoomUpdate 1 2 ≤ 20) ∧
    ((0.05 : ℚ) ≤ oneToOneZoom ∧ oneToOneZoom ≤ 20) ∧
    (0 : ℚ) < fitToViewZoom 100 100 50 50 :=
  zoom_ops_range 1 2 100 100 50 50 (by norm_num) (by norm_num) (by norm_num) (by norm_num)

/-- Claim C9 counterexample: when savePng rejects (the main-process
fs.writeFileSync throws), the await in the export handler throws and the
restore on renderer.js lines 612-614 is skipped: from view center (10, 20)
and zoom 5, the handler leaves zoom 1 and the overridden center (50, 40)
instead of restoring the pre-export view, refuting the claim for the
"save fails" outcome. -/
theorem export_restore_skipped_on_throw :
    (exportClick ⟨⟨10, 20, 5⟩, ⟨1, 2, 1, 1, 0.5, 0.3⟩⟩ 100 80 SaveOutcome.threw).2 ≠
      ⟨⟨10, 20, 5⟩, ⟨1, 2, 1, 1, 0.5, 0.3⟩⟩ ∧
    (exportClick ⟨⟨10, 20, 5⟩, ⟨1, 2, 1, 1, 0.5, 0.3⟩⟩ 100 80 SaveOutcome.threw).2.view =
      ⟨50, 40, 1⟩ := by
  refine ⟨?_, ?_⟩
  · intro h
    simp only [exportClick] at h
    exact absurd (congrArg (fun r => r.view.zoom) h) (by norm_num)
  · norm_num [exportClick]

/-- Claim C9 amended: the export handler renders with zoom 1 and center at
the source midpoint, and the six effect parameters are never modified, for
any save outcome; when savePng resolves (the save succeeded or the dialog
was cancelled) the view center and zoom are restored to their pre-export
values, but when savePng rejects the handler aborts before the restore and
the view stays at the export override. -/
theorem export_frame_effect_guarded (s : RendererState) (srcW srcH : ℚ) (outcome : SaveOutcome) :
    (exportClick s srcW srcH outcome).1.zoom = 1 ∧
    (exportClick s srcW srcH outcome).1.centerX = srcW * 0.5 ∧
    (exportClick s srcW srcH outcome).1.centerY = srcH * 0.5 ∧
    (exportClick s srcW srcH outcome).1.settings = s.settings ∧
    (exportClick s srcW srcH outcome).2.settings = s.settings ∧
    (outcome ≠ SaveOutcome.threw → (exportClick s srcW srcH outcome).2 = s) ∧
    (outcome = SaveOutcome.threw →
      (exportClick s srcW srcH outcome).2.view = ⟨srcW * 0.5, srcH * 0.5, 1⟩) := by
  obtain ⟨⟨cx, cy, z⟩, st⟩ := s
  cases outcome
  · exact ⟨rfl, rfl, rfl, rfl, rfl, fun _ => rfl, fun h => nomatch h⟩
  · exact ⟨rfl, rfl, rfl, rfl, rfl, fun _ => rfl, fun h => nomatch h⟩
  · exact ⟨rfl, rfl, rfl, rfl, rfl, fun h => absurd rfl h, fun _ => rfl⟩

/-- Witness for the amended C9: a successful save restores the exact
pre-export state. -/
theorem export_frame_effect_guarded_witness :
    (exportClick ⟨⟨10, 20, 5⟩, ⟨1, 2, 1, 1, 0.5, 0.3⟩⟩ 100 80 SaveOutcome.ok).2 =
      ⟨⟨10, 20, 5⟩, ⟨1, 2, 1, 1, 0.5, 0.3⟩⟩ ∧
    (exportClick ⟨⟨10, 20, 5⟩, ⟨1, 2, 1, 1, 0.5, 0.3⟩⟩ 100 80 SaveOutcome.ok).1.zoom = 1 :=
  ⟨(export_frame_effect_guarded ⟨⟨10, 20, 5⟩, ⟨1, 2, 1, 1, 0.5, 0.3⟩⟩ 100 80
      SaveOutcome.ok).2.2.2.2.2.1 (fun h => nomatch h),
   (export_frame_effect_guarded ⟨⟨10, 20, 5⟩, ⟨1, 2, 1, 1, 0.5, 0.3⟩⟩ 100 80
      SaveOutcome.ok).1⟩

set_option maxHeartbeats 1000000 in
/-- Claim C10: for every AnalysisResult the auto settings are bounded:
brightness in [0.75, 1.25], toon in [0.24, 0.28], threshold in [0.25, 0.34],
edges in [1.0, 1.15], hatching in [0.75, 1.0], scale exactly 2.0; hence
toon + 0.05 is at most 0.33 and 1 - threshold is at least 0.66, so the auto
preset always yields a non-degenerate midtone zone. -/
theorem auto_settings_bounded (a : AnalysisResult) :
    (0.75 ≤ (calculateAutoSettings a).brightness ∧ (calculateAutoSettings a).brightness ≤ 1.25) ∧
    (0.24 ≤ (calculateAutoSettings a).toon ∧ (calculateAutoSettings a).toon ≤ 0.28) ∧
    (0.25 ≤ (calculateAutoSettings a).threshold ∧ (calculateAutoSettings a).threshold ≤ 0.34) ∧
    (1 ≤ (calculateAutoSettings a).edges ∧ (calculateAutoSettings a).edges ≤ 1.15) ∧
    (0.75 ≤ (calculateAutoSettings a).hatching ∧ (calculateAutoSettings a).hatching ≤ 1) ∧
    (calculateAutoSettings a).scale = 2 ∧
    (calculateAutoSettings a).toon + 0.05 ≤ 0.33 ∧
    0.66 ≤ 1 - (calculateAutoSettings a).threshold := by
  obtain ⟨hcf1, hcf2⟩ := mapRange_mem_desc a.stdLum 0.1 0.25 1.0 0.3 (by norm_num) (by norm_num)
  obtain ⟨ht1, ht2⟩ := mapRange_mem_asc a.stdLum 0.1 0.25 0.24 0.28 (by norm_num) (by norm_num)
  obtain ⟨hbm1, hbm2⟩ := mapRange_mem_desc a.meanLum 0.35 0.55 0.95 0.85 (by norm_num) (by norm_num)
  obtain ⟨hbb1, hbb2⟩ := mapRange_mem_desc a.meanLum 0.55 0.75 0.85 0.75 (by norm_num) (by norm_num)
  obtain ⟨hthd1, hthd2⟩ := mapRange_mem_asc a.meanLum 0.15 0.35 0.25 0.32 (by norm_num) (by norm_num)
  obtain ⟨hthb1, hthb2⟩ := mapRange_mem_desc a.meanLum 0.35 0.6 0.34 0.30 (by norm_num) (by norm_num)
  obtain ⟨he1, he2⟩ := mapRange_mem_desc a.textureComplexity 0.4 0.8 1.15 1.0 (by norm_num) (by norm_num)
  obtain ⟨hh1, hh2⟩ := mapRange_mem_asc a.meanLum 0.15 0.35 0.75 0.90 (by norm_num) (by norm_num)
  have hT : (calculateAutoSettings a).toon = mapRange a.stdLum 0.1 0.25 0.24 0.28 := by
    simp only [calculateAutoSettings]
  have hS : (calculateAutoSettings a).scale = 2 := by
    simp only [calculateAutoSettings]
    norm_num
  by_cases h35 : a.meanLum < 0.35
  · have hB : (calculateAutoSettings a).brightness = 0.95 + 0.3 * mapRange a.stdLum 0.1 0.25 1.0 0.3 := by
      simp only [calculateAutoSettings]
      rw [if_pos h35]
    have hTh : (calculateAutoSettings a).threshold = mapRange a.meanLum 0.15 0.35 0.25 0.32 := by
      simp only [calculateAutoSettings]
      rw [if_pos h35]
    have hE : (calculateAutoSettings a).edges = 1 := by
      simp only [calculateAutoSettings]
      rw [if_pos h35]
      norm_num
    have hH : (calculateAutoSettings a).hatching = mapRange a.meanLum 0.15 0.35 0.75 0.90 := by
      simp only [calculateAutoSettings]
      rw [if_pos h35]
    rw [hB, hT, hTh, hE, hH, hS]
    refine ⟨⟨by linarith, by linarith⟩, ⟨by linarith, by linarith⟩,
      ⟨by linarith, by linarith⟩, ⟨by linarith, by linarith⟩,
      ⟨by linarith, by linarith⟩, rfl, by linarith, by linarith⟩
  · have hTh : (calculateAutoSettings a).threshold = mapRange a.meanLum 0.35 0.6 0.34 0.30 := by
      simp only [calculateAutoSettings]
      rw [if_neg h35]
    have hE : (calculateAutoSettings a).edges = mapRange a.textureComplexity 0.4 0.8 1.15 1.0 := by
      simp only [calculateAutoSettings]
      rw [if_neg h35]
    have hH : (calculateAutoSettings a).hatching = 1 := by
      simp only [calculateAutoSettings]
      rw [if_neg h35]
      norm_num
    have hBmem : 0.75 ≤ (calculateAutoSettings a).brightness ∧
        (calculateAutoSettings a).brightness ≤ 1.25 := by
      by_cases h55 : a.meanLum < 0.55
      · have hB : (calculateAutoSettings a).brightness = mapRange a.meanLum 0.35 0.55 0.95 0.85 := by
          simp only [calculateAutoSettings]
          rw [if_neg h35, if_pos h55]
        rw [hB]
        exact ⟨by linarith, by linarith⟩
      · have hB : (calculateAutoSettings a).brightness = mapRange a.meanLum 0.55 0.75 0.85 0.75 := by
          simp only [calculateAutoSettings]
          rw [if_neg h35, if_neg h55]
        rw [hB]
        exact ⟨by linarith, by linarith⟩
    rw [hT, hTh, hE, hH, hS]
    refine ⟨hBmem, ⟨by linarith, by linarith⟩,
      ⟨by linarith, by linarith⟩, ⟨by linarith, by linarith⟩,
      ⟨by norm_num, by norm_num⟩, rfl, by linarith, by linarith⟩

end Crosshatch
